import Mathlib

/-!
Verification development for the googleHunter repository.

The Python sources under scripts/ are shallowly embedded:
pure string processing works on `List Char` (a Python `str` is a sequence
of characters), dictionaries parsed from JSON are association lists,
stateful code is explicit state passing, and fallible code returns
`Option` or `Except`.  JSON decoding (`json.loads`) is modelled by an
executable fueled parser covering the JSON fragment the service emits
(null, booleans, integers, strings with simple escapes, arrays,
objects); inputs outside this fragment are treated as decode failures.
-/

namespace GoogleHunter

/-- The exception taxonomy of google_trends_client.py / playwright_fetcher.py.
`generic` stands for any exception that is not one of the library's own
classes (e.g. a plain ValueError). -/
inductive PyErr where
  | rateLimit
  | tokenErr
  | invalidRequest
  | parseErr
  | apiErr
  | navErr
  | generic
deriving DecidableEq, Repr

/-- `isinstance(e, GoogleTrendsError)`: the five client error classes all
subclass GoogleTrendsError; NavigationError and foreign exceptions do not. -/
def isGoogleTrendsError : PyErr → Bool
  | .rateLimit => true
  | .tokenErr => true
  | .invalidRequest => true
  | .parseErr => true
  | .apiErr => true
  | .navErr => false
  | .generic => false

def isRateLimitError : PyErr → Bool
  | .rateLimit => true
  | _ => false

def isTokenError : PyErr → Bool
  | .tokenErr => true
  | _ => false

/-- JSON values as produced by `json.loads` (integer numbers only; the
service payloads modelled here carry no floats). -/
inductive Json where
  | null
  | bool (b : Bool)
  | num (n : Int)
  | str (s : String)
  | arr (elems : List Json)
  | obj (fields : List (String × Json))

/-- Python dictionaries that came out of `json.loads` (unique keys,
insertion ordered). -/
abbrev PyDict := List (String × Json)

/-- `d.get(k)` / `d[k]` lookup (first matching key). -/
def dictGet (d : PyDict) (k : String) : Option Json :=
  (d.find? (fun p => p.1 == k)).map (fun p => p.2)

/-- `del d[k]`. -/
def dictDelete (d : PyDict) (k : String) : PyDict :=
  d.filter (fun p => !(p.1 == k))

/-- `d[k] = v`: replaces the value at an existing key in place, otherwise
appends the new binding at the end (Python dict insertion order). -/
def dictSet (d : PyDict) (k : String) (v : Json) : PyDict :=
  if d.any (fun p => p.1 == k) then
    d.map (fun p => if p.1 == k then (k, v) else p)
  else
    d ++ [(k, v)]

/-- `j.get(k, default)` on a JSON object; the service responses modelled
here are well-formed objects where this accessor is used. -/
def jGetD (j : Json) (k : String) (dflt : Json) : Json :=
  match j with
  | .obj fs => (dictGet fs k).getD dflt
  | _ => dflt

/-- Fetch a key expecting a JSON array, defaulting to the empty list. -/
def jGetArr (j : Json) (k : String) : List Json :=
  match jGetD j k (.arr []) with
  | .arr xs => xs
  | _ => []

/-- Fetch a key expecting a JSON string, defaulting to `""`. -/
def jGetStr (j : Json) (k : String) : String :=
  match jGetD j k (.str "") with
  | .str s => s
  | _ => ""

/-! ### Python string helpers (a Python `str` is a `List Char`) -/

/-- The whitespace characters of Python's `str.strip()` (ASCII subset). -/
def isPySpace (c : Char) : Bool :=
  c == ' ' || c == '\t' || c == '\n' || c == '\x0d' || c == '\x0b' || c == '\x0c'

/-- `s.strip()`. -/
def pyStrip (l : List Char) : List Char :=
  ((l.dropWhile isPySpace).reverse.dropWhile isPySpace).reverse

/-- `s.split(chr(10))`: split on newline keeping empty pieces. -/
def splitNl : List Char → List (List Char)
  | [] => [[]]
  | c :: rest =>
    match splitNl rest with
    | [] => [[c]]
    | h :: t => if c == '\n' then [] :: h :: t else (c :: h) :: t

/-- `s.isdigit()` restricted to ASCII digits. -/
def isDigitLine (l : List Char) : Bool :=
  !l.isEmpty && l.all (fun c => '0' ≤ c && c ≤ '9')

/-- Python's `needle in hay` substring test. -/
def containsSub (needle : List Char) : List Char → Bool
  | [] => needle.isEmpty
  | c :: rest => needle.isPrefixOf (c :: rest) || containsSub needle rest

/-! ### Anti-hijacking marker stripping

google_trends_client.py `_parse_response` (lines 156-168): the body may
start with the four characters `)]` + closing brace + apostrophe (in which
case five characters are dropped, the fifth being the newline that
follows the marker in practice), or with `)]` + closing brace + newline
(four characters dropped). -/

/-- The four-character marker `)]` + closing brace + apostrophe. -/
def markerApos : List Char := [')', ']', '\x7d', '\x27']

/-- The four-character marker variant `)]` + closing brace + newline. -/
def markerNl : List Char := [')', ']', '\x7d', '\n']

/-- The prefix-stripping step of `GoogleTrendsClient._parse_response`. -/
def stripResponseText (text : List Char) : List Char :=
  if markerApos.isPrefixOf text then text.drop 5
  else if markerNl.isPrefixOf text then text.drop 4
  else text

/-- True when the body begins with either recognized marker variant. -/
def hasMarker (text : List Char) : Bool :=
  markerApos.isPrefixOf text || markerNl.isPrefixOf text

/-- The single-variant stripping used by `PlaywrightTrendsFetcher`
(`_handle_response` line 218, `_parse_batchexecute_timeline` line 627):
only the apostrophe variant is checked, and five characters are dropped. -/
def stripBatchMarker (body : List Char) : List Char :=
  if markerApos.isPrefixOf body then body.drop 5 else body

/-! ### json.loads -/

/-- JSON whitespace. -/
def isJsonWs (c : Char) : Bool :=
  c == ' ' || c == '\t' || c == '\n' || c == '\x0d'

def skipWs (l : List Char) : List Char := l.dropWhile isJsonWs

/-- Body of a JSON string after the opening quote; returns the decoded
characters and the rest after the closing quote.  Escapes outside the
simple set (including unicode escapes) are decode failures. -/
def parseStringBody : List Char → Option (List Char × List Char)
  | [] => none
  | '"' :: rest => some ([], rest)
  | '\\' :: e :: rest =>
    match parseStringBody rest with
    | none => none
    | some (s, r) =>
      if e == '"' then some ('"' :: s, r)
      else if e == '\\' then some ('\\' :: s, r)
      else if e == '/' then some ('/' :: s, r)
      else if e == 'n' then some ('\n' :: s, r)
      else if e == 't' then some ('\t' :: s, r)
      else if e == 'r' then some ('\x0d' :: s, r)
      else if e == 'b' then some ('\x08' :: s, r)
      else if e == 'f' then some ('\x0c' :: s, r)
      else none
  | c :: rest =>
    match parseStringBody rest with
    | none => none
    | some (s, r) => some (c :: s, r)

def isAsciiDigit (c : Char) : Bool := '0' ≤ c && c ≤ '9'

/-- Digits of a JSON integer as a natural number, with the rest. -/
def parseDigits (l : List Char) : Option (Nat × List Char) :=
  let digits := l.takeWhile isAsciiDigit
  if digits.isEmpty then none
  else
    let n := digits.foldl (fun acc c => acc * 10 + (c.toNat - '0'.toNat)) 0
    some (n, l.drop digits.length)

mutual

/-- One JSON value (fueled recursive-descent parser). -/
def parseVal : Nat → List Char → Option (Json × List Char)
  | 0, _ => none
  | _ + 1, [] => none
  | fuel + 1, c :: rest =>
    if c == 'n' then
      if ['u', 'l', 'l'].isPrefixOf rest then some (.null, rest.drop 3) else none
    else if c == 't' then
      if ['r', 'u', 'e'].isPrefixOf rest then some (.bool true, rest.drop 3) else none
    else if c == 'f' then
      if ['a', 'l', 's', 'e'].isPrefixOf rest then some (.bool false, rest.drop 4) else none
    else if c == '"' then
      match parseStringBody rest with
      | some (s, r) => some (.str (String.mk s), r)
      | none => none
    else if c == '[' then
      match skipWs rest with
      | ']' :: r => some (.arr [], r)
      | l => match parseElems fuel l with
        | some (xs, r) => some (.arr xs, r)
        | none => none
    else if c == '\x7b' then
      match skipWs rest with
      | '\x7d' :: r => some (.obj [], r)
      | l => match parseFields fuel l with
        | some (fs, r) => some (.obj fs, r)
        | none => none
    else if c == '-' then
      match parseDigits rest with
      | some (n, r) => some (.num (-(n : Int)), r)
      | none => none
    else if isAsciiDigit c then
      match parseDigits (c :: rest) with
      | some (n, r) => some (.num (n : Int), r)
      | none => none
    else none

/-- Comma-separated JSON array elements up to the closing bracket. -/
def parseElems : Nat → List Char → Option (List Json × List Char)
  | 0, _ => none
  | fuel + 1, l =>
    match parseVal fuel (skipWs l) with
    | none => none
    | some (j, r) =>
      match skipWs r with
      | ',' :: r2 =>
        match parseElems fuel r2 with
        | some (xs, r3) => some (j :: xs, r3)
        | none => none
      | ']' :: r2 => some ([j], r2)
      | _ => none

/-- Comma-separated JSON object fields up to the closing brace. -/
def parseFields : Nat → List Char → Option (List (String × Json) × List Char)
  | 0, _ => none
  | fuel + 1, l =>
    match skipWs l with
    | '"' :: r =>
      match parseStringBody r with
      | none => none
      | some (k, r1) =>
        match skipWs r1 with
        | ':' :: r2 =>
          match parseVal fuel (skipWs r2) with
          | none => none
          | some (v, r3) =>
            match skipWs r3 with
            | ',' :: r4 =>
              match parseFields fuel r4 with
              | some (fs, r5) => some ((String.mk k, v) :: fs, r5)
              | none => none
            | '\x7d' :: r4 => some ([(String.mk k, v)], r4)
            | _ => none
        | _ => none
    | _ => none

end

/-- `json.loads` on the modelled JSON fragment: a single value with
optional surrounding whitespace; anything else fails to decode. -/
def jsonLoads (l : List Char) : Option Json :=
  match parseVal (2 * l.length + 4) (skipWs l) with
  | some (j, rest) => if (skipWs rest).isEmpty then some j else none
  | none => none

/-! ### Multiplexed-RPC chunk decoding
debug_batchexecute.py `parse_batchexecute_response` (lines 16-50). -/

/-- The while-loop of `parse_batchexecute_response`: when a stripped line
is all digits the following line is JSON-decoded; on decode failure a
line with a literal array start is kept as an opaque raw fragment
(truncated to 500 characters) and the scan resumes two lines later. -/
def pbLoop : List (List Char) → List Json
  | [] => []
  | line :: rest =>
    if isDigitLine (pyStrip line) then
      match rest with
      | [] => []
      | dataLine :: rest2 =>
        match jsonLoads dataLine with
        | some j => j :: pbLoop rest2
        | none =>
          if dataLine.head? == some '[' then
            Json.obj [("raw", Json.str (String.mk (dataLine.take 500)))] :: pbLoop rest2
          else
            pbLoop rest2
    else pbLoop rest

/-- `parse_batchexecute_response`: strip the anti-hijacking marker, strip
surrounding whitespace, split into lines, run the framing loop. -/
def parse_batchexecute_response (text : List Char) : List Json :=
  pbLoop (splitNl (pyStrip (stripBatchMarker text)))

/-! ### Regex helpers of `_parse_batchexecute_timeline`
(playwright_fetcher.py lines 618-692).  Each regex literal of the source
is embedded as an equivalent character scanner. -/

/-- The quoted literal `"timelineData"`. -/
def litTimeline : List Char := "\"timelineData\"".toList

/-- The quoted literal `"value"`. -/
def litValue : List Char := "\"value\"".toList

/-- The quoted literal `"formattedTime"`. -/
def litFTime : List Char := "\"formattedTime\"".toList

/-- Skip characters matched by the regex class backslash-s. -/
def skipReWs (l : List Char) : List Char := l.dropWhile isPySpace

/-- Lazy scan for the earliest closing bracket whose lookahead (optional
whitespace then a comma or closing brace) succeeds; `acc` holds the
characters consumed so far, reversed.  Returns the capture without its
opening bracket. -/
def lazyCloseScan : Nat → List Char → List Char → Option (List Char)
  | 0, _, _ => none
  | _, _, [] => none
  | fuel + 1, acc, c :: rest =>
    if c == ']' then
      match skipReWs rest with
      | d :: _ =>
        if d == ',' || d == '\x7d' then some (acc.reverse ++ [']'])
        else lazyCloseScan fuel (c :: acc) rest
      | [] => lazyCloseScan fuel (c :: acc) rest
    else lazyCloseScan fuel (c :: acc) rest

/-- Attempt the tail of the timelineData regex right after its quoted
literal: optional whitespace, a colon, optional whitespace, then the
lazily captured bracketed group. -/
def matchTimelineAt (l : List Char) : Option (List Char) :=
  match skipReWs l with
  | ':' :: r =>
    match skipReWs r with
    | '[' :: r2 =>
      match lazyCloseScan (r2.length + 1) [] r2 with
      | some cap => some ('[' :: cap)
      | none => none
    | _ => none
  | _ => none

/-- `re.search` for the pattern quoted-timelineData, colon, lazy
bracketed group followed by a comma or closing brace: the first start
position where the whole pattern matches wins. -/
def searchTimeline : Nat → List Char → Option (List Char)
  | 0, _ => none
  | _, [] => none
  | fuel + 1, t@(_ :: rest) =>
    if litTimeline.isPrefixOf t then
      match matchTimelineAt (t.drop litTimeline.length) with
      | some g => some g
      | none => searchTimeline fuel rest
    else searchTimeline fuel rest

/-- Tail of the value regex after its quoted literal: colon, opening
bracket, one or more digits (captured), closing bracket.  Returns the
captured digits and the text after the match. -/
def matchValueAt (l : List Char) : Option (List Char × List Char) :=
  match skipReWs l with
  | ':' :: r =>
    match skipReWs r with
    | '[' :: r2 =>
      let ds := r2.takeWhile isAsciiDigit
      if ds.isEmpty then none
      else
        match r2.drop ds.length with
        | ']' :: r3 => some (ds, r3)
        | _ => none
    | _ => none
  | _ => none

/-- `re.findall` for the single-value pattern: non-overlapping matches
left to right, each capture being the digit group. -/
def findallValue : Nat → List Char → List (List Char)
  | 0, _ => []
  | _, [] => []
  | fuel + 1, t@(_ :: rest) =>
    if litValue.isPrefixOf t then
      match matchValueAt (t.drop litValue.length) with
      | some (ds, after) => ds :: findallValue fuel after
      | none => findallValue fuel rest
    else findallValue fuel rest

/-- Tail of the formattedTime regex after its quoted literal: colon, a
quoted run of one or more non-quote characters (captured). -/
def matchFTimeAt (l : List Char) : Option (List Char × List Char) :=
  match skipReWs l with
  | ':' :: r =>
    match skipReWs r with
    | '"' :: r2 =>
      let cs := r2.takeWhile (fun c => c != '"')
      if cs.isEmpty then none
      else
        match r2.drop cs.length with
        | '"' :: r3 => some (cs, r3)
        | _ => none
    | _ => none
  | _ => none

/-- `re.findall` for the formattedTime pattern. -/
def findallFTime : Nat → List Char → List (List Char)
  | 0, _ => []
  | _, [] => []
  | fuel + 1, t@(_ :: rest) =>
    if litFTime.isPrefixOf t then
      match matchFTimeAt (t.drop litFTime.length) with
      | some (cs, after) => cs :: findallFTime fuel after
      | none => findallFTime fuel rest
    else findallFTime fuel rest

/-- `int(s)` on a digit string. -/
def digitsToInt (ds : List Char) : Int :=
  (ds.foldl (fun acc c => acc * 10 + (c.toNat - '0'.toNat)) 0 : Nat)

/-! ### `_parse_batchexecute_timeline` -/

/-- playwright_fetcher.py `InterestDataPoint`.  The dataclass annotates
`value: int` and `formatted_value: str` but Python does not enforce
annotations, and the decoder stores raw JSON array elements in them, so
the embedded fields carry `Json`. -/
structure InterestDataPoint where
  date : String
  value : Json
  formatted_value : Json := Json.str ""

/-- The per-keyword results dictionary `{kw: [...] for kw in keywords}`. -/
abbrev IotResults := List (String × List InterestDataPoint)

def resultsInit {α : Type} (kws : List String) : List (String × List α) :=
  kws.map (fun k => (k, []))

/-- `results[kw].append(p)`. -/
def resultsAppend {α : Type} (res : List (String × List α)) (kw : String) (p : α) :
    List (String × List α) :=
  res.map (fun e => if e.1 == kw then (e.1, e.2 ++ [p]) else e)

/-- `any(results.values())`. -/
def anyResults {α : Type} (res : List (String × List α)) : Bool :=
  res.any (fun e => !e.2.isEmpty)

/-- The inner `for i, kw in enumerate(keywords)` append loop of the
timeline decoders. -/
def appendPointsForKws (res : IotResults) (kws : List String) (t : String)
    (values formatted : List Json) : IotResults :=
  kws.enum.foldl
    (fun r ikw =>
      if ikw.1 < values.length then
        resultsAppend r ikw.2
          ⟨t, values.getD ikw.1 Json.null,
            if ikw.1 < formatted.length then formatted.getD ikw.1 Json.null
            else Json.str ""⟩
      else r)
    res

/-- The `for point in timeline_data` loop.  A point that is not an
object, or whose value/formattedValue entry is present but not an array,
raises at runtime (caught by the enclosing generic handler); the Boolean
result is false in that case, with the appends made so far kept. -/
def addTimelinePoints (kws : List String) : IotResults → List Json → IotResults × Bool
  | res, [] => (res, true)
  | res, p :: ps =>
    match p with
    | Json.obj _ =>
      match jGetD p "value" (Json.arr []), jGetD p "formattedValue" (Json.arr []) with
      | Json.arr values, Json.arr formatted =>
        let t := jGetStr p "formattedTime"
        addTimelinePoints kws (appendPointsForKws res kws t values formatted) ps
      | _, _ => (res, false)
    | _ => (res, false)

/-- Outcome of processing one accumulated response body: either an early
return from the whole decoder or continuation with the next body. -/
inductive BodyOutcome where
  | ret (r : IotResults)
  | cont (r : IotResults)

/-- One iteration of the `for response_body in ...` loop of
`_parse_batchexecute_timeline`: strip the marker, skip bodies without
the literal timelineData key, try the structural regex-plus-JSON path,
then the positional value/formattedTime regex recovery. -/
def processBatchBody (kws : List String) (res : IotResults) (body : List Char) : BodyOutcome :=
  let body2 := stripBatchMarker body
  if !containsSub litTimeline body2 then .cont res
  else
    let structStep : BodyOutcome ⊕ IotResults :=
      match searchTimeline (body2.length + 1) body2 with
      | some timelineStr =>
        match jsonLoads timelineStr with
        | some (Json.arr pts) =>
          let rb := addTimelinePoints kws res pts
          if !rb.2 then Sum.inl (.cont rb.1)
          else if anyResults rb.1 then Sum.inl (.ret rb.1)
          else Sum.inr rb.1
        | some _ => Sum.inl (.cont res)
        | none => Sum.inr res
      | none => Sum.inr res
    match structStep with
    | Sum.inl o => o
    | Sum.inr r2 =>
      let vms := findallValue (body2.length + 1) body2
      let tms := findallFTime (body2.length + 1) body2
      if !vms.isEmpty && !tms.isEmpty && vms.length == tms.length then
        let r3 := (tms.zip vms).foldl
          (fun r tv =>
            kws.foldl
              (fun r kw =>
                resultsAppend r kw ⟨String.mk tv.1, Json.num (digitsToInt tv.2), Json.str ""⟩)
              r)
          r2
        if anyResults r3 then .ret r3 else .cont r3
      else .cont r2

/-- The body loop of `_parse_batchexecute_timeline`. -/
def runBatchBodies (kws : List String) : IotResults → List (List Char) → IotResults
  | res, [] => res
  | res, b :: bs =>
    match processBatchBody kws res b with
    | .ret r => r
    | .cont r => runBatchBodies kws r bs

/-- `PlaywrightTrendsFetcher._parse_batchexecute_timeline`, applied to
the accumulated multiplexed response bodies. -/
def parse_batchexecute_timeline (bodies : List (List Char)) (kws : List String) : IotResults :=
  runBatchBodies kws (resultsInit kws) bodies

/-! ### Protocol Client (google_trends_client.py)

Network effects are explicit: `Net` maps the index of an outbound
request to the HTTP response it receives, and every operation threads a
`ClientState` whose request log records the outbound requests in order.
The wall-clock rate limiter is modelled separately below (`send_times`);
it delays requests but changes no data. -/

structure TrendsConfig where
  geo : String := "US"
  hl : String := "en-US"
  tz : Int := -480
  category : Int := 0
  property_filter : String := ""
deriving DecidableEq

structure HttpResp where
  status : Nat
  body : List Char

inductive ReqMethod where
  | get
  | post
deriving DecidableEq

/-- One outbound request: endpoint URL, method, and the query parameters.
The `req` parameter is carried as its JSON value (its `json.dumps`
serialization is not modelled). -/
structure TrendsRequest where
  url : String
  method : ReqMethod := .get
  params : PyDict := []

structure ClientState where
  reqLog : List TrendsRequest := []

abbrev Net := Nat → HttpResp

/-- `GoogleTrendsClient._parse_response`: strip the anti-hijacking
marker, then JSON-decode. -/
def parse_response (text : List Char) : Option Json :=
  jsonLoads (stripResponseText text)

/-- The error `raise_for_status` maps a failing HTTP status to
(lines 208-213): 429 becomes RateLimitError, 400 InvalidRequestError,
anything else APIError. -/
def statusToErr (status : Nat) : PyErr :=
  if status == 429 then .rateLimit
  else if status == 400 then .invalidRequest
  else .apiErr

/-- `GoogleTrendsClient._make_request`: issue the request, map failing
statuses to typed errors, parse the body (a decode failure becomes
ParseError). -/
def make_request (net : Net) (st : ClientState) (r : TrendsRequest) :
    Except PyErr Json × ClientState :=
  let resp := net st.reqLog.length
  let st2 : ClientState := ⟨st.reqLog ++ [r]⟩
  if resp.status < 400 then
    match parse_response resp.body with
    | some j => (.ok j, st2)
    | none => (.error .parseErr, st2)
  else
    (.error (statusToErr resp.status), st2)

/-- `GoogleTrendsClient._clean_request_data`: copy the echoed request
dictionary and delete any `userConfig` entry. -/
def clean_request_data (request_data : PyDict) : PyDict :=
  dictDelete request_data "userConfig"

/-- Widget token info: the token string and the echoed request body. -/
structure TokenInfo where
  token : String
  request_data : PyDict

/-- The echoed request body of a widget, coerced to a dictionary (the
service always returns an object here). -/
def widgetRequest (w : Json) : PyDict :=
  match jGetD w "request" (Json.obj []) with
  | .obj fs => fs
  | _ => []

/-- The token-collection loop of `_get_explore_tokens` (lines 250-263):
keep every widget with a non-empty token, keyed by its widget id. -/
def widgetTokens (data : Json) : List (String × TokenInfo) :=
  (jGetArr data "widgets").foldl
    (fun acc w =>
      let widget_id := jGetStr w "id"
      let token := jGetStr w "token"
      if token != "" then acc ++ [(widget_id, ⟨token, widgetRequest w⟩)] else acc)
    []

/-- The combined explore request of `_get_explore_tokens`. -/
def exploreRequest (cfg : TrendsConfig) (keywords : List String) (timeframe geo : String) :
    TrendsRequest :=
  { url := "https://trends.google.com/trends/api/explore"
    method := .post
    params :=
      [("hl", .str cfg.hl), ("tz", .num cfg.tz),
       ("req", .obj
          [("comparisonItem", .arr (keywords.map (fun kw =>
              .obj [("keyword", .str kw), ("geo", .str geo), ("time", .str timeframe)]))),
           ("category", .num cfg.category),
           ("property", .str cfg.property_filter)])] }

/-- `GoogleTrendsClient._get_explore_tokens`. -/
def get_explore_tokens (net : Net) (cfg : TrendsConfig) (keywords : List String)
    (timeframe : String) (geoOpt : Option String) (st : ClientState) :
    Except PyErr (List (String × TokenInfo)) × ClientState :=
  let geo := geoOpt.getD cfg.geo
  match make_request net st (exploreRequest cfg keywords timeframe geo) with
  | (.ok data, st2) => (.ok (widgetTokens data), st2)
  | (.error e, st2) => (.error e, st2)

/-- The widget-id scan of the data operations: first token whose widget
id contains the wanted substring. -/
def findWidgetToken (tokens : List (String × TokenInfo)) (needle : String) : Option TokenInfo :=
  (tokens.find? (fun p => containsSub needle.toList p.1.toList)).map (fun p => p.2)

/-- google_trends_client.py `InterestPoint`.  As with the fetcher, the
annotated `int`/`str`/`bool` field types are unenforced and the parsed
JSON array elements are stored as they come, so the embedding carries
`Json` for them. -/
structure InterestPoint where
  date : String
  value : Json
  formatted_value : Json := Json.str ""
  is_partial : Json := Json.bool false

abbrev ClientIotResults := List (String × List InterestPoint)

/-- The timeline-parsing loop of `get_interest_over_time`
(lines 414-432), assuming the well-formed object shape the service
produces for timeline points. -/
def clientTimelineResults (keywords : List String) (data : Json) : ClientIotResults :=
  let timeline := jGetArr (jGetD data "default" (Json.obj [])) "timelineData"
  timeline.foldl
    (fun res point =>
      let time_str := jGetStr point "formattedTime"
      let values := jGetArr point "value"
      let formatted := jGetArr point "formattedValue"
      let is_partial := jGetD point "isPartial" (Json.bool false)
      keywords.enum.foldl
        (fun r ikw =>
          if ikw.1 < values.length then
            resultsAppend r ikw.2
              ⟨time_str, values.getD ikw.1 Json.null,
                if ikw.1 < formatted.length then formatted.getD ikw.1 Json.null
                else Json.str "",
                is_partial⟩
          else r)
        res)
    (resultsInit keywords)

/-- The widget-data request of `get_interest_over_time` (lines 404-409). -/
def multilineRequest (cfg : TrendsConfig) (ti : TokenInfo) : TrendsRequest :=
  { url := "https://trends.google.com/trends/api/widgetdata/multiline"
    method := .get
    params :=
      [("hl", .str cfg.hl), ("tz", .num cfg.tz),
       ("req", .obj (clean_request_data ti.request_data)),
       ("token", .str ti.token)] }

/-- `GoogleTrendsClient.get_interest_over_time`: the 5-keyword guard
comes first, then token acquisition, then the widget-data request. -/
def get_interest_over_time (net : Net) (cfg : TrendsConfig) (keywords : List String)
    (timeframe : String) (geoOpt : Option String) (st : ClientState) :
    Except PyErr ClientIotResults × ClientState :=
  if keywords.length > 5 then (.error .invalidRequest, st)
  else
    match get_explore_tokens net cfg keywords timeframe geoOpt st with
    | (.error e, st2) => (.error e, st2)
    | (.ok tokens, st2) =>
      match findWidgetToken tokens "TIMESERIES" with
      | none => (.error .tokenErr, st2)
      | some ti =>
        match make_request net st2 (multilineRequest cfg ti) with
        | (.error e, st3) => (.error e, st3)
        | (.ok data, st3) => (.ok (clientTimelineResults keywords data), st3)

/-! ### get_daily_trends -/

structure Article where
  title : String
  url : String
  source : String
deriving DecidableEq

/-- google_trends_client.py `TrendingSearch`. -/
structure TrendingSearch where
  title : String
  traffic : String
  related_queries : List String := []
  articles : List Article := []
  image_url : String := ""
deriving DecidableEq

/-- One trending-search record from its JSON object (lines 300-318). -/
def trendingSearchOf (search : Json) : TrendingSearch :=
  { title := jGetStr (jGetD search "title" (Json.obj [])) "query"
    traffic := jGetStr search "formattedTraffic"
    related_queries := (jGetArr search "relatedQueries").map (fun q => jGetStr q "query")
    articles := (jGetArr search "articles").map (fun a =>
      ⟨jGetStr a "title", jGetStr a "url", jGetStr a "source"⟩)
    image_url := jGetStr (jGetD search "image" (Json.obj [])) "newsUrl" }

/-- The nested extraction loop of `get_daily_trends` (lines 295-320). -/
def dailyTrendsResults (data : Json) : List TrendingSearch :=
  let trending_days := jGetArr (jGetD data "default" (Json.obj [])) "trendingSearchesDays"
  trending_days.flatMap (fun day => (jGetArr day "trendingSearches").map trendingSearchOf)

/-- The daily-trends request (lines 285-291). -/
def dailyRequest (cfg : TrendsConfig) (geo date : String) : TrendsRequest :=
  { url := "https://trends.google.com/trends/api/dailytrends"
    method := .get
    params :=
      [("hl", .str cfg.hl), ("tz", .num cfg.tz), ("geo", .str geo),
       ("ns", .num 15), ("ed", .str date)] }

/-- `GoogleTrendsClient.get_daily_trends`; `today` stands for the current
date string used when no date is supplied. -/
def get_daily_trends (net : Net) (cfg : TrendsConfig) (geoOpt dateOpt : Option String)
    (today : String) (st : ClientState) :
    Except PyErr (List TrendingSearch) × ClientState :=
  let geo := geoOpt.getD cfg.geo
  let date := dateOpt.getD today
  match make_request net st (dailyRequest cfg geo date) with
  | (.error e, st2) => (.error e, st2)
  | (.ok data, st2) => (.ok (dailyTrendsResults data), st2)

/-! ### get_related_queries result assembly (lines 472-493) -/

/-- Python truthiness of a JSON value. -/
def jTruthy : Json → Bool
  | .null => false
  | .bool b => b
  | .num n => !(n == 0)
  | .str s => !(s == "")
  | .arr xs => !xs.isEmpty
  | .obj fs => !fs.isEmpty

/-- google_trends_client.py `RelatedQuery`; `value` is the raw magnitude
or the Breakout sentinel string. -/
structure RelatedQuery where
  query : String
  value : Json
  link : String

/-- `"Breakout"` detection: `item.get("formattedValue") == "Breakout"`. -/
def isBreakout (item : Json) : Bool :=
  match jGetD item "formattedValue" Json.null with
  | .str s => s == "Breakout"
  | _ => false

/-- One related-query record from its JSON item (lines 479-491). -/
def relatedQueryOf (item : Json) : RelatedQuery :=
  { query := jGetStr item "query"
    value := if isBreakout item then Json.str "Breakout" else jGetD item "value" (Json.num 0)
    link := jGetStr item "link" }

/-- `list_type = "top" if ranked.get("rankedKeyword") else "rising"`. -/
def rankedListType (ranked : Json) : String :=
  if jTruthy (jGetD ranked "rankedKeyword" Json.null) then "top" else "rising"

/-- The result dictionary `{"top": [], "rising": []}`. -/
structure RelatedResults where
  top : List RelatedQuery := []
  rising : List RelatedQuery := []

/-- The keys of the related-queries result dictionary, in insertion
order. -/
def relatedResultKeys : List String := ["top", "rising"]

/-- `results[list_type].extend(...)` keyed by the computed list type. -/
def rrAppend (rs : RelatedResults) (key : String) (qs : List RelatedQuery) : RelatedResults :=
  if key == "top" then { rs with top := rs.top ++ qs }
  else if key == "rising" then { rs with rising := rs.rising ++ qs }
  else rs

/-- The ranked-list loop of `get_related_queries`: classify each ranked
list, then append its items to that bucket. -/
def relatedQueriesFromData (data : Json) : RelatedResults :=
  let ranked_lists := jGetArr (jGetD data "default" (Json.obj [])) "rankedList"
  ranked_lists.foldl
    (fun rs ranked =>
      rrAppend rs (rankedListType ranked)
        ((jGetArr ranked "rankedKeyword").map relatedQueryOf))
    {}

/-! ### get_interest_by_region request body (lines 585-594) -/

/-- The widget-data request body that `get_interest_by_region` builds:
clean the echoed request, then assign the requested resolution. -/
def region_request_data (echoed : PyDict) (resolution : String) : PyDict :=
  dictSet (clean_request_data echoed) "resolution" (.str resolution)

/-! ### Rate limiter (lines 127-154)

Time is a rational number of seconds.  `rate_limit_send` gives the time
at which a request is actually sent when the wrapped call arrives at
clock time `now` and the previous request was recorded at `last`:
if less than `interval` has elapsed the call sleeps for the remaining
delta (`slack ≥ 0` accounts for oversleeping and for the clock advancing
between its two reads). -/

/-- `self._min_request_interval = 1.0` (seconds). -/
def min_request_interval : ℚ := 1

/-- The send time produced by one `_rate_limit` call. -/
def rate_limit_send (interval last now slack : ℚ) : ℚ :=
  (if now - last < interval then now + (interval - (now - last)) else now) + slack

/-- Send times of a sequence of calls on one client instance; each call
is an arrival clock time paired with its sleep slack, and the recorded
`_last_request_time` after each call is its send time. -/
def send_times (interval : ℚ) : ℚ → List (ℚ × ℚ) → List ℚ
  | _, [] => []
  | last, c :: cs =>
    let s := rate_limit_send interval last c.1 c.2
    s :: send_times interval s cs

/-! ### Orchestrator (trends_api.py) -/

/-- trends_api.py `TrendsAPIConfig` (the fields the fallback policy and
reconfiguration operations read). -/
structure TrendsAPIConfig where
  geo : String := "US"
  hl : String := "en-US"
  tz : Int := -480
  use_fallback : Bool := true
  fallback_on_rate_limit : Bool := true
  fallback_on_token_error : Bool := true
  proxy : Option String := none
deriving DecidableEq

/-- `TrendsAPI._should_fallback` (lines 151-168). -/
def should_fallback (c : TrendsAPIConfig) (e : PyErr) : Bool :=
  if !c.use_fallback then false
  else if isRateLimitError e && c.fallback_on_rate_limit then true
  else if isTokenError e && c.fallback_on_token_error then true
  else if isGoogleTrendsError e then true
  else false

/-- trends_api.py `UnifiedTrendingItem`. -/
structure UnifiedTrendingItem where
  title : String
  traffic : String
  related_queries : List String := []
  articles : List Article := []
  source : String := "api"
deriving DecidableEq

/-- playwright_fetcher.py `TrendingItem`. -/
structure TrendingItem where
  title : String
  traffic : String
  related_queries : List String := []
  articles : List Article := []
deriving DecidableEq

def unifyApiItem (r : TrendingSearch) : UnifiedTrendingItem :=
  { title := r.title, traffic := r.traffic, related_queries := r.related_queries,
    articles := r.articles, source := "api" }

def unifyPlaywrightItem (r : TrendingItem) : UnifiedTrendingItem :=
  { title := r.title, traffic := r.traffic, related_queries := r.related_queries,
    articles := r.articles, source := "playwright" }

/-- `TrendsAPI.daily_trends_async` (lines 189-234), abstracted over the
outcome of the direct client call and over what the browser fetcher
would return.  The second component counts invocations of the fetcher
(`_daily_trends_playwright` performs exactly one `get_daily_trends` call
on the lazily constructed fetcher). -/
def daily_trends_async (c : TrendsAPIConfig)
    (apiOutcome : Except PyErr (List TrendingSearch))
    (fetcherItems : List TrendingItem) :
    Except PyErr (List UnifiedTrendingItem) × Nat :=
  match apiOutcome with
  | .ok rs => (.ok (rs.map unifyApiItem), 0)
  | .error e =>
    if should_fallback c e then (.ok (fetcherItems.map unifyPlaywrightItem), 1)
    else (.error e, 0)

/-- `TrendsAPI.realtime_trends` (lines 398-419): library errors are
swallowed into an empty list and the fetcher is never used. -/
def realtime_trends (apiOutcome : Except PyErr (List Json)) :
    Except PyErr (List Json) × Nat :=
  match apiOutcome with
  | .ok rs => (.ok rs, 0)
  | .error e => if isGoogleTrendsError e then (.ok [], 0) else (.error e, 0)

/-- trends_api.py `UnifiedInterestPoint` (the annotated `int`/`str`/`bool`
field types are unenforced; the raw values flow through, so the embedded
fields carry `Json`). -/
structure UnifiedInterestPoint where
  date : String
  value : Json
  formatted_value : Json := Json.str ""
  is_partial : Json := Json.bool false
  source : String := "api"

def unifyApiPoint (p : InterestPoint) : UnifiedInterestPoint :=
  { date := p.date, value := p.value, formatted_value := p.formatted_value,
    is_partial := p.is_partial, source := "api" }

/-- The playwright branch of `_interest_over_time_playwright`
(lines 306-317) does not pass `is_partial`, leaving the dataclass
default. -/
def unifyPlaywrightPoint (p : InterestDataPoint) : UnifiedInterestPoint :=
  { date := p.date, value := p.value, formatted_value := p.formatted_value,
    source := "playwright" }

/-- `TrendsAPI.interest_over_time_async` (lines 257-317), abstracted
over the direct client outcome and the fetcher's per-keyword points. -/
def interest_over_time_async (c : TrendsAPIConfig)
    (apiOutcome : Except PyErr ClientIotResults)
    (fetcherResults : IotResults) :
    Except PyErr (List (String × List UnifiedInterestPoint)) × Nat :=
  match apiOutcome with
  | .ok rs => (.ok (rs.map (fun e => (e.1, e.2.map unifyApiPoint))), 0)
  | .error e =>
    if should_fallback c e then
      (.ok (fetcherResults.map (fun e => (e.1, e.2.map unifyPlaywrightPoint))), 1)
    else (.error e, 0)

/-- trends_api.py `UnifiedRelatedQuery`. -/
structure UnifiedRelatedQuery where
  query : String
  value : Json
  link : Json := Json.str ""
  source : String := "api"

def unifyApiQuery (q : RelatedQuery) : UnifiedRelatedQuery :=
  { query := q.query, value := q.value, link := Json.str q.link, source := "api" }

/-- The playwright branch of `_related_queries_playwright`
(lines 383-394): the fetcher's records are plain dictionaries; `query`
is always present in the dictionaries that path produces, so the
defaulting accessor coincides with the subscript access of the source. -/
def unifyPlaywrightQuery (q : Json) : UnifiedRelatedQuery :=
  { query := jGetStr q "query", value := jGetD q "value" (Json.num 0),
    link := jGetD q "link" (Json.str ""), source := "playwright" }

/-- `TrendsAPI.related_queries_async` (lines 335-394): the direct
client's top/rising buckets are unified in dictionary insertion order;
on fallback each bucket of the fetcher's dictionary is unified. -/
def related_queries_async (c : TrendsAPIConfig)
    (apiOutcome : Except PyErr RelatedResults)
    (fetcherResults : List (String × List Json)) :
    Except PyErr (List (String × List UnifiedRelatedQuery)) × Nat :=
  match apiOutcome with
  | .ok rs =>
    (.ok [("top", rs.top.map unifyApiQuery), ("rising", rs.rising.map unifyApiQuery)], 0)
  | .error e =>
    if should_fallback c e then
      (.ok (fetcherResults.map (fun e => (e.1, e.2.map unifyPlaywrightQuery))), 1)
    else (.error e, 0)

/-- `TrendsAPI.interest_by_region_async` (lines 440-466): both paths
return their region records as they are — in particular the fallback
branch returns the fetcher's records with no source tag added. -/
def interest_by_region_async (c : TrendsAPIConfig)
    (apiOutcome : Except PyErr (List Json))
    (fetcherRegions : List Json) :
    Except PyErr (List Json) × Nat :=
  match apiOutcome with
  | .ok rs => (.ok rs, 0)
  | .error e =>
    if should_fallback c e then (.ok fetcherRegions, 1)
    else (.error e, 0)

/-! ### Reconfiguration (trends_api.py set_geo / set_proxy) -/

/-- One constructed `GoogleTrendsClient` instance: `gen` is its identity
(a fresh generation number for each construction). -/
structure ClientInstance where
  gen : Nat
  config : TrendsConfig
  proxy : Option String := none
deriving DecidableEq

/-- The orchestrator state the reconfiguration operations touch: its own
config, the current client instance, the generation counter for the next
construction, and the identities of clients already closed. -/
structure TrendsAPIState where
  config : TrendsAPIConfig
  client : ClientInstance
  nextGen : Nat
  closedGens : List Nat := []
deriving DecidableEq

/-- `TrendsAPI.__init__` (lines 118-130): build a TrendsConfig from the
orchestrator config and construct the first client with it. -/
def trendsAPIInit (c : TrendsAPIConfig) : TrendsAPIState :=
  { config := c
    client := { gen := 0, config := { geo := c.geo, hl := c.hl, tz := c.tz }, proxy := c.proxy }
    nextGen := 1 }

/-- `TrendsAPI.set_geo` (lines 485-488): assign the new geo on the
orchestrator config and on the existing client's config, in place. -/
def set_geo (st : TrendsAPIState) (geo : String) : TrendsAPIState :=
  { st with
    config := { st.config with geo := geo }
    client := { st.client with config := { st.client.config with geo := geo } } }

/-- `TrendsAPI.set_proxy` (lines 499-512): record the proxy, close the
old client, and construct a new client from a fresh TrendsConfig. -/
def set_proxy (st : TrendsAPIState) (proxy : Option String) : TrendsAPIState :=
  let api_config : TrendsConfig := { geo := st.config.geo, hl := st.config.hl, tz := st.config.tz }
  { st with
    config := { st.config with proxy := proxy }
    closedGens := st.closedGens ++ [st.client.gen]
    client := { gen := st.nextGen, config := api_config, proxy := proxy }
    nextGen := st.nextGen + 1 }

/-! ### Browser Fetcher warmup (playwright_fetcher.py lines 257-308)

`_warmup_session` returns immediately when `_session_warmed_up` is
already set; otherwise it runs the navigation/interaction sequence and
sets the flag only when the guarded block completes (`ok`).  The flag is
assigned `False` only in `_setup` and is never reset afterwards; other
fetcher operations invoke warmup but do not touch the flag themselves. -/

/-- One warmup invocation: the session flag, and whether the guarded
warmup block would complete without an exception.  Returns the new flag
and whether the navigation sequence was entered. -/
def warmup_session (warmedUp ok : Bool) : Bool × Bool :=
  if warmedUp then (warmedUp, false)
  else if ok then (true, true)
  else (warmedUp, true)

/-- The fetcher operations that can run while the session is open. -/
inductive FetcherOp where
  | warmup (ok : Bool)
  | dataCall (ok : Bool)
  | cleanup
deriving DecidableEq

/-- Run a sequence of fetcher operations starting from session flag `w`.
Returns the final flag, the number of warmup invocations that entered
the navigation sequence while the flag was already set, and the number
of invocations that completed the sequence and set the flag
(data calls begin by invoking warmup; cleanup leaves the flag alone). -/
def runFetcherOps : Bool → List FetcherOp → Bool × Nat × Nat
  | w, [] => (w, 0, 0)
  | w, op :: ops =>
    match op with
    | .warmup ok | .dataCall ok =>
      let wr := warmup_session w ok
      let rest := runFetcherOps wr.1 ops
      (rest.1,
       rest.2.1 + (if w && wr.2 then 1 else 0),
       rest.2.2 + (if !w && wr.1 then 1 else 0))
    | .cleanup => runFetcherOps w ops

/-! ## Theorems -/

/-- The spec's concrete multiplexed payload from §8, as characters. -/
def specPayload : List Char :=
  ")]\x7d\x27\n12\n[\x7b\"formattedTime\":\"Jan 1\",\"value\":[50]\x7d]\n".toList

/-- C2 (counterexample): on the spec's multiplexed payload the
interest-point decoder `_parse_batchexecute_timeline` yields zero
points, not one: the stripped body does not contain the literal
`timelineData` key the decoder insists on, so the body is skipped. -/
theorem batchexecute_payload_yields_no_point :
    parse_batchexecute_timeline [specPayload] ["kw"] = [("kw", [])] ∧
    anyResults (parse_batchexecute_timeline [specPayload] ["kw"]) = false :=
  ⟨rfl, rfl⟩

/-- C2 (amended): the chunk-framing decoder `parse_batchexecute_response`
yields exactly one decoded chunk for the spec's payload — a one-element
array whose element has formattedTime "Jan 1" and value [50] — while the
interest-point decoder `_parse_batchexecute_timeline` yields zero
interest points for it, because the body lacks the `timelineData` key it
requires before attempting any extraction. -/
theorem batchexecute_payload_decoding :
    parse_batchexecute_response specPayload =
      [Json.arr [Json.obj [("formattedTime", Json.str "Jan 1"),
                           ("value", Json.arr [Json.num 50])]]] ∧
    parse_batchexecute_timeline [specPayload] ["kw2"] = [("kw2", [])] :=
  ⟨rfl, rfl⟩

/-- C3: requesting interest over time with more than five keywords fails
with InvalidRequestError immediately: the client state (and with it the
outbound request log) is returned unchanged, so no request — in
particular no token-acquisition request — is ever issued. -/
theorem interest_over_time_keyword_limit (net : Net) (cfg : TrendsConfig)
    (keywords : List String) (timeframe : String) (geoOpt : Option String)
    (st : ClientState) (h : keywords.length > 5) :
    get_interest_over_time net cfg keywords timeframe geoOpt st =
      (.error .invalidRequest, st) := by
  unfold get_interest_over_time
  rw [if_pos h]

/-- C3 (witness): six keywords trip the guard with an empty request log. -/
theorem interest_over_time_keyword_limit_witness :
    (["a", "b", "c", "d", "e", "f"] : List String).length > 5 ∧
    get_interest_over_time (fun _ => ⟨200, []⟩) {} ["a", "b", "c", "d", "e", "f"]
        "today 12-m" none ⟨[]⟩ = (.error .invalidRequest, ⟨[]⟩) :=
  ⟨by decide,
   interest_over_time_keyword_limit (fun _ => ⟨200, []⟩) {} _ "today 12-m" none ⟨[]⟩
     (by decide)⟩

/-- C4 (counterexample): stripping is not idempotent on every body — a
body carrying the marker twice still starts with the marker after one
strip, so a second strip removes more. -/
theorem strip_not_idempotent :
    stripResponseText (stripResponseText (")]\x7d\x27\n)]\x7d\x27\nX".toList)) ≠
      stripResponseText (")]\x7d\x27\n)]\x7d\x27\nX".toList) := by decide

/-- C4 (amended): the stripper recognizes both marker variants (the
apostrophe variant, dropping five characters, and the literal-newline
variant, dropping four), and it is a no-op on a body starting with
neither variant; hence stripping is idempotent exactly on those bodies
whose once-stripped form does not itself begin with a marker. -/
theorem strip_variants_and_conditional_idempotence (s b : List Char) (c : Char)
    (h : hasMarker (stripResponseText b) = false) :
    stripResponseText (')' :: ']' :: '\x7d' :: '\x27' :: c :: s) = s ∧
    stripResponseText (')' :: ']' :: '\x7d' :: '\n' :: s) = s ∧
    stripResponseText (stripResponseText b) = stripResponseText b := by
  refine ⟨rfl, ?_, ?_⟩
  · simp [stripResponseText, markerApos, markerNl, List.isPrefixOf]
  · simp only [hasMarker, Bool.or_eq_false_iff] at h
    obtain ⟨h1, h2⟩ := h
    generalize stripResponseText b = t at h1 h2 ⊢
    unfold stripResponseText
    rw [if_neg (by simp [h1]), if_neg (by simp [h2])]

/-- C4 (witness): both variant equations and the idempotence of a
once-marked body, at concrete inputs. -/
theorem strip_variants_witness :
    hasMarker (stripResponseText (")]\x7d\x27\nhello".toList)) = false ∧
    (stripResponseText (')' :: ']' :: '\x7d' :: '\x27' :: 'q' :: "xy".toList) = "xy".toList ∧
     stripResponseText (')' :: ']' :: '\x7d' :: '\n' :: "xy".toList) = "xy".toList ∧
     stripResponseText (stripResponseText (")]\x7d\x27\nhello".toList)) =
       stripResponseText (")]\x7d\x27\nhello".toList)) :=
  ⟨by decide,
   strip_variants_and_conditional_idempotence "xy".toList (")]\x7d\x27\nhello".toList) 'q'
     (by decide)⟩

/-- C9 (counterexample): a daily-trends call whose HTTP 200 response has
an empty body raises ParseError (the empty string is not valid JSON)
instead of returning an empty list. -/
theorem daily_trends_empty_body_raises :
    (get_daily_trends (fun _ => ⟨200, []⟩) {} none none "20240101" ⟨[]⟩).1 =
      .error .parseErr ∧
    (get_daily_trends (fun _ => ⟨200, []⟩) {} none none "20240101" ⟨[]⟩).1 ≠
      .ok [] := by
  refine ⟨rfl, fun h => ?_⟩
  rw [show (get_daily_trends (fun _ => (⟨200, []⟩ : HttpResp)) {} none none "20240101"
      ⟨[]⟩).1 = Except.error PyErr.parseErr from rfl] at h
  exact Except.noConfusion h

/-- C9 (amended): an empty daily-trends body fails with ParseError after
one outbound request, while a well-formed JSON body containing no
trending days (the empty object) yields an empty list without raising. -/
theorem daily_trends_empty_body_behavior :
    get_daily_trends (fun _ => ⟨200, []⟩) {} none none "20240101" ⟨[]⟩ =
      (.error .parseErr, ⟨[dailyRequest {} "US" "20240101"]⟩) ∧
    get_daily_trends (fun _ => ⟨200, "\x7b\x7d".toList⟩) {} none none "20240101" ⟨[]⟩ =
      (.ok [], ⟨[dailyRequest {} "US" "20240101"]⟩) :=
  ⟨rfl, rfl⟩

/-! Dictionary lemmas for the region request body. -/

theorem dictGet_cons (p : String × Json) (d : PyDict) (k : String) :
    dictGet (p :: d) k = if p.1 == k then some p.2 else dictGet d k := by
  unfold dictGet
  cases hpk : p.1 == k <;> simp [List.find?, hpk]

theorem dictGet_map_set_ne (d : PyDict) (k : String) (v : Json) (k2 : String)
    (h : k2 ≠ k) :
    dictGet (d.map (fun p => if p.1 == k then (k, v) else p)) k2 = dictGet d k2 := by
  induction d with
  | nil => rfl
  | cons p tl ih =>
    simp only [List.map_cons]
    by_cases hp : p.1 = k
    · rw [show (if p.1 == k then (k, v) else p) = (k, v) from by simp [hp]]
      rw [dictGet_cons, dictGet_cons]
      have hk2 : (k == k2) = false := beq_eq_false_iff_ne.mpr (Ne.symm h)
      have hp2 : (p.1 == k2) = false := by
        rw [hp]; exact beq_eq_false_iff_ne.mpr (Ne.symm h)
      simp only [hk2, hp2, Bool.false_eq_true, if_false]
      exact ih
    · rw [show (if p.1 == k then (k, v) else p) = p from by
        simp [beq_eq_false_iff_ne.mpr hp]]
      rw [dictGet_cons, dictGet_cons]
      cases hpk2 : p.1 == k2
      · simp only [hpk2, Bool.false_eq_true, if_false]
        exact ih
      · simp only [hpk2, if_true]

theorem dictGet_append_single_ne (d : PyDict) (k : String) (v : Json) (k2 : String)
    (h : k2 ≠ k) :
    dictGet (d ++ [(k, v)]) k2 = dictGet d k2 := by
  induction d with
  | nil => simp [dictGet, List.find?, beq_eq_false_iff_ne.mpr (Ne.symm h)]
  | cons p tl ih =>
    rw [List.cons_append, dictGet_cons, dictGet_cons, ih]

theorem dictGet_set_ne (d : PyDict) (k : String) (v : Json) (k2 : String)
    (h : k2 ≠ k) :
    dictGet (dictSet d k v) k2 = dictGet d k2 := by
  unfold dictSet
  by_cases ha : d.any (fun p => p.1 == k) = true
  · rw [if_pos ha]; exact dictGet_map_set_ne d k v k2 h
  · rw [if_neg ha]; exact dictGet_append_single_ne d k v k2 h

theorem dictGet_map_set_same (d : PyDict) (k : String) (v : Json)
    (ha : d.any (fun p => p.1 == k) = true) :
    dictGet (d.map (fun p => if p.1 == k then (k, v) else p)) k = some v := by
  induction d with
  | nil => simp at ha
  | cons p tl ih =>
    simp only [List.map_cons]
    by_cases hp : p.1 = k
    · rw [show (if p.1 == k then (k, v) else p) = (k, v) from by simp [hp]]
      rw [dictGet_cons]
      simp
    · have hpf : (p.1 == k) = false := beq_eq_false_iff_ne.mpr hp
      have ha2 : tl.any (fun p => p.1 == k) = true := by
        simpa [List.any_cons, hpf] using ha
      rw [show (if p.1 == k then (k, v) else p) = p from by simp [hpf]]
      rw [dictGet_cons]
      simp only [hpf, Bool.false_eq_true, if_false]
      exact ih ha2

theorem dictGet_append_single_same (d : PyDict) (k : String) (v : Json)
    (ha : d.any (fun p => p.1 == k) = false) :
    dictGet (d ++ [(k, v)]) k = some v := by
  induction d with
  | nil => simp [dictGet, List.find?]
  | cons p tl ih =>
    simp only [List.any_cons, Bool.or_eq_false_iff] at ha
    rw [List.cons_append, dictGet_cons]
    simp [ha.1, ih ha.2]

theorem dictGet_set_same (d : PyDict) (k : String) (v : Json) :
    dictGet (dictSet d k v) k = some v := by
  unfold dictSet
  by_cases ha : d.any (fun p => p.1 == k) = true
  · rw [if_pos ha]; exact dictGet_map_set_same d k v ha
  · rw [if_neg ha]
    exact dictGet_append_single_same d k v (by rwa [Bool.not_eq_true] at ha)

/-- C5: the widget-data request body built by interest-by-region with
resolution CITY differs from the COUNTRY one only at the resolution key
(first and second conjuncts), and injecting a resolution into an echoed
request dictionary changes the lookup of no other key (third conjunct). -/
theorem region_resolution_only_difference (echoed d : PyDict) (res k : String)
    (h : k ≠ "resolution") :
    dictGet (region_request_data echoed "CITY") k =
      dictGet (region_request_data echoed "COUNTRY") k ∧
    dictGet (region_request_data echoed res) "resolution" = some (.str res) ∧
    dictGet (dictSet d "resolution" (.str res)) k = dictGet d k := by
  refine ⟨?_, ?_, ?_⟩
  · unfold region_request_data
    rw [dictGet_set_ne _ _ _ _ h, dictGet_set_ne _ _ _ _ h]
  · exact dictGet_set_same _ _ _
  · exact dictGet_set_ne _ _ _ _ h

/-- C5 (witness): a concrete echoed request body. -/
theorem region_resolution_witness :
    ("geo" : String) ≠ "resolution" ∧
    (dictGet (region_request_data [("geo", Json.str "US")] "CITY") "geo" =
       dictGet (region_request_data [("geo", Json.str "US")] "COUNTRY") "geo" ∧
     dictGet (region_request_data [("geo", Json.str "US")] "CITY") "resolution" =
       some (Json.str "CITY") ∧
     dictGet (dictSet [("geo", Json.str "US")] "resolution" (Json.str "CITY")) "geo" =
       dictGet [("geo", Json.str "US")] "geo") :=
  ⟨by decide,
   region_resolution_only_difference [("geo", Json.str "US")] [("geo", Json.str "US")]
     "CITY" "geo" (by decide)⟩

/-! Rate limiter. -/

/-- Every send happens at least `interval` after the previously recorded
request time, whatever the arrival time, provided sleeping never ends
early. -/
theorem rate_limit_send_lower (interval last now slack : ℚ) (hs : 0 ≤ slack) :
    last + interval ≤ rate_limit_send interval last now slack := by
  unfold rate_limit_send
  by_cases hlt : now - last < interval
  · rw [if_pos hlt]; linarith
  · rw [if_neg hlt]
    have := not_lt.mp hlt
    linarith

theorem send_times_chain (interval : ℚ) (calls : List (ℚ × ℚ)) :
    ∀ last, (∀ c ∈ calls, 0 ≤ c.2) →
      (send_times interval last calls).Chain' (fun a b => a + interval ≤ b) := by
  induction calls with
  | nil => intro last _; simp [send_times]
  | cons c cs ih =>
    intro last h
    rw [send_times, List.chain'_cons']
    refine ⟨?_, ih _ (fun x hx => h x (List.mem_cons_of_mem _ hx))⟩
    intro b hb
    cases cs with
    | nil => simp [send_times] at hb
    | cons c2 cs2 =>
      simp only [send_times, List.head?_cons, Option.mem_def, Option.some.injEq] at hb
      subst hb
      exact rate_limit_send_lower interval _ c2.1 c2.2
        (h c2 (List.mem_cons_of_mem _ (List.mem_cons_self _ _)))

/-- C6: for any sequence of calls on one client instance (each given by
its arrival clock time and a nonnegative sleep slack), consecutive send
times produced by the rate limiter differ by at least the configured
floor interval, whose default is one second. -/
theorem rate_limiter_floor_interval (interval last : ℚ) (calls : List (ℚ × ℚ))
    (h : ∀ c ∈ calls, 0 ≤ c.2) :
    (send_times interval last calls).Chain' (fun a b => a + interval ≤ b) ∧
    min_request_interval = 1 :=
  ⟨send_times_chain interval calls last h, rfl⟩

/-- C6 (witness): two calls arriving half a second apart are sent a full
second apart. -/
theorem rate_limiter_floor_interval_witness :
    (∀ c ∈ ([((1 : ℚ)/2, 0), (3/5, 0)] : List (ℚ × ℚ)), 0 ≤ c.2) ∧
    ((send_times 1 0 ([((1 : ℚ)/2, 0), (3/5, 0)])).Chain' (fun a b => a + 1 ≤ b) ∧
     min_request_interval = 1) :=
  ⟨by intro c hc; fin_cases hc <;> norm_num,
   rate_limiter_floor_interval 1 0 _ (by intro c hc; fin_cases hc <;> norm_num)⟩

/-- C7: over any run of fetcher operations, no warmup invocation enters
the navigation sequence once the warmed-up flag is set (first conjunct),
the sequence completes and sets the flag at most once — and never when
the run starts already warmed (second conjunct) — and the flag is never
reset while the fetcher is open (third conjunct). -/
theorem warmup_at_most_once (w : Bool) (ops : List FetcherOp) :
    (runFetcherOps w ops).2.1 = 0 ∧
    (runFetcherOps w ops).2.2 ≤ (if w then 0 else 1) ∧
    w ≤ (runFetcherOps w ops).1 := by
  induction ops generalizing w with
  | nil => cases w <;> simp [runFetcherOps]
  | cons op ops ih =>
    cases op with
    | warmup ok =>
      cases w with
      | true =>
        obtain ⟨i1, i2, i3⟩ := ih true
        simp only [runFetcherOps, warmup_session] at *
        simp_all
      | false =>
        cases ok with
        | true =>
          obtain ⟨i1, i2, i3⟩ := ih true
          simp only [runFetcherOps, warmup_session] at *
          simp_all
        | false =>
          obtain ⟨i1, i2, i3⟩ := ih false
          simp only [runFetcherOps, warmup_session] at *
          simp_all
    | dataCall ok =>
      cases w with
      | true =>
        obtain ⟨i1, i2, i3⟩ := ih true
        simp only [runFetcherOps, warmup_session] at *
        simp_all
      | false =>
        cases ok with
        | true =>
          obtain ⟨i1, i2, i3⟩ := ih true
          simp only [runFetcherOps, warmup_session] at *
          simp_all
        | false =>
          obtain ⟨i1, i2, i3⟩ := ih false
          simp only [runFetcherOps, warmup_session] at *
          simp_all
    | cleanup =>
      simpa only [runFetcherOps] using ih w

/-! Related queries classification. -/

theorem rankedKeyword_nil_of_not_truthy (r : Json)
    (h : jTruthy (jGetD r "rankedKeyword" Json.null) = false) :
    jGetArr r "rankedKeyword" = [] := by
  cases r with
  | obj fs =>
    cases hg : dictGet fs "rankedKeyword" with
    | none => simp [jGetArr, jGetD, hg]
    | some u =>
      simp only [jGetD, hg, Option.getD_some] at h
      cases u <;> simp_all [jTruthy, jGetArr, jGetD, hg]
  | null => rfl
  | bool b => rfl
  | num n => rfl
  | str s => rfl
  | arr xs => rfl

theorem relatedFold_spec (ls : List Json) (rs : RelatedResults) :
    (ls.foldl (fun rs ranked => rrAppend rs (rankedListType ranked)
        ((jGetArr ranked "rankedKeyword").map relatedQueryOf)) rs).rising = rs.rising ∧
    (ls.foldl (fun rs ranked => rrAppend rs (rankedListType ranked)
        ((jGetArr ranked "rankedKeyword").map relatedQueryOf)) rs).top =
      rs.top ++ ls.flatMap (fun r => (jGetArr r "rankedKeyword").map relatedQueryOf) := by
  induction ls generalizing rs with
  | nil => simp
  | cons r ls ih =>
    simp only [List.foldl_cons, List.flatMap_cons]
    by_cases ht : jTruthy (jGetD r "rankedKeyword" Json.null) = true
    · have hty : rankedListType r = "top" := by unfold rankedListType; rw [if_pos ht]
      rw [hty, show rrAppend rs "top" ((jGetArr r "rankedKeyword").map relatedQueryOf) =
        { rs with top := rs.top ++ (jGetArr r "rankedKeyword").map relatedQueryOf } from by
          simp [rrAppend]]
      obtain ⟨i1, i2⟩ := ih { rs with top := rs.top ++ (jGetArr r "rankedKeyword").map relatedQueryOf }
      exact ⟨i1, by rw [i2]; simp [List.append_assoc]⟩
    · have htf : jTruthy (jGetD r "rankedKeyword" Json.null) = false := by
        rwa [Bool.not_eq_true] at ht
      have hty : rankedListType r = "rising" := by unfold rankedListType; rw [if_neg ht]
      have hitems := rankedKeyword_nil_of_not_truthy r htf
      rw [hty, hitems]
      rw [show rrAppend rs "rising" (List.map relatedQueryOf []) = rs from by simp [rrAppend]]
      obtain ⟨i1, i2⟩ := ih rs
      exact ⟨i1, by rw [i2]; simp⟩

/-- C10: on the direct protocol path, every related query extracted from
the response lands in the top bucket (the top list is exactly the
concatenation of all rankedKeyword items), the rising bucket is always
empty, the result dictionary has exactly the keys top and rising, and a
ranked list whose rankedKeyword array is non-empty is classified top
(empty means rising). -/
theorem related_queries_top_only (data : Json) (xs : List Json) :
    (relatedQueriesFromData data).rising = [] ∧
    (relatedQueriesFromData data).top =
      (jGetArr (jGetD data "default" (Json.obj [])) "rankedList").flatMap
        (fun r => (jGetArr r "rankedKeyword").map relatedQueryOf) ∧
    rankedListType (Json.obj [("rankedKeyword", Json.arr xs)]) =
      (if xs.isEmpty then "rising" else "top") ∧
    relatedResultKeys = ["top", "rising"] := by
  obtain ⟨h1, h2⟩ :=
    relatedFold_spec (jGetArr (jGetD data "default" (Json.obj [])) "rankedList") {}
  refine ⟨?_, ?_, ?_, rfl⟩
  · exact h1
  · simpa using h2
  · cases hxs : xs.isEmpty <;>
      simp [rankedListType, jGetD, dictGet, List.find?, jTruthy, hxs]

/-! Orchestrator fallback policy. -/

/-- C1 (counterexample): with `use_fallback = true` but
`fallback_on_rate_limit = false`, a RateLimitError from the client does
not get re-raised: RateLimitError is a GoogleTrendsError, so the generic
branch of `_should_fallback` still triggers the fallback, and the
fetcher is invoked once. -/
theorem fallback_flag_false_still_falls_back :
    daily_trends_async { fallback_on_rate_limit := false } (.error .rateLimit) [] =
      (.ok [], 1) ∧
    daily_trends_async { fallback_on_rate_limit := false } (.error .rateLimit) [] ≠
      (.error .rateLimit, 0) := by
  refine ⟨rfl, fun h => ?_⟩
  rw [show daily_trends_async { fallback_on_rate_limit := false } (.error .rateLimit) [] =
      (.ok [], 1) from rfl] at h
  simp at h

theorem should_fallback_rateLimit_of_enabled (c : TrendsAPIConfig)
    (h : c.use_fallback = true) :
    should_fallback c .rateLimit = true := by
  unfold should_fallback
  cases hf : c.fallback_on_rate_limit <;>
    simp [h, hf, isRateLimitError, isTokenError, isGoogleTrendsError]

theorem should_fallback_of_disabled (c : TrendsAPIConfig) (e : PyErr)
    (h : c.use_fallback = false) :
    should_fallback c e = false := by
  unfold should_fallback
  simp [h]

/-- C1 (amended): for the four fallback-equipped operations — daily
trends, interest over time, related queries, interest by region — with
`use_fallback = true` a RateLimitError from the Protocol Client triggers
exactly one Browser Fetcher invocation whether or not
`fallback_on_rate_limit` is set (RateLimitError is a GoogleTrendsError,
so the generic branch of `_should_fallback` fires regardless).  Daily
trends, interest over time and related queries tag every returned record
source "playwright" (the spec's browser-automation provenance), while
interest by region returns the Fetcher's region records unmodified, with
no source tag added.  The error is re-raised unchanged, without invoking
the Fetcher, exactly when `use_fallback = false`.  The realtime-trends
operation is outside this scheme: it swallows the error into an empty
list without ever invoking the fetcher. -/
theorem rate_limit_fallback_policy (c : TrendsAPIConfig)
    (items : List TrendingItem) (iot : IotResults)
    (rq : List (String × List Json)) (regions : List Json) :
    (c.use_fallback = true →
      daily_trends_async c (.error .rateLimit) items =
        (.ok (items.map unifyPlaywrightItem), 1) ∧
      (∀ it ∈ items.map unifyPlaywrightItem, it.source = "playwright") ∧
      interest_over_time_async c (.error .rateLimit) iot =
        (.ok (iot.map (fun e => (e.1, e.2.map unifyPlaywrightPoint))), 1) ∧
      (∀ e ∈ iot.map (fun e => (e.1, e.2.map unifyPlaywrightPoint)),
        ∀ p ∈ e.2, p.source = "playwright") ∧
      related_queries_async c (.error .rateLimit) rq =
        (.ok (rq.map (fun e => (e.1, e.2.map unifyPlaywrightQuery))), 1) ∧
      (∀ e ∈ rq.map (fun e => (e.1, e.2.map unifyPlaywrightQuery)),
        ∀ q ∈ e.2, q.source = "playwright") ∧
      interest_by_region_async c (.error .rateLimit) regions = (.ok regions, 1)) ∧
    (c.use_fallback = false →
      daily_trends_async c (.error .rateLimit) items = (.error .rateLimit, 0) ∧
      interest_over_time_async c (.error .rateLimit) iot = (.error .rateLimit, 0) ∧
      related_queries_async c (.error .rateLimit) rq = (.error .rateLimit, 0) ∧
      interest_by_region_async c (.error .rateLimit) regions = (.error .rateLimit, 0)) ∧
    realtime_trends (.error .rateLimit) = (.ok [], 0) := by
  refine ⟨fun h => ?_, fun h => ?_, rfl⟩
  · have hsf := should_fallback_rateLimit_of_enabled c h
    refine ⟨?_, ?_, ?_, ?_, ?_, ?_, ?_⟩
    · simp [daily_trends_async, hsf]
    · intro it hit
      rw [List.mem_map] at hit
      obtain ⟨r, _, rfl⟩ := hit
      rfl
    · simp [interest_over_time_async, hsf]
    · intro e he p hp
      rw [List.mem_map] at he
      obtain ⟨e0, _, rfl⟩ := he
      rw [List.mem_map] at hp
      obtain ⟨p0, _, rfl⟩ := hp
      rfl
    · simp [related_queries_async, hsf]
    · intro e he q hq
      rw [List.mem_map] at he
      obtain ⟨e0, _, rfl⟩ := he
      rw [List.mem_map] at hq
      obtain ⟨q0, _, rfl⟩ := hq
      rfl
    · simp [interest_by_region_async, hsf]
  · have hsf := should_fallback_of_disabled c .rateLimit h
    refine ⟨?_, ?_, ?_, ?_⟩
    · simp [daily_trends_async, hsf]
    · simp [interest_over_time_async, hsf]
    · simp [related_queries_async, hsf]
    · simp [interest_by_region_async, hsf]

/-- C1 (witness): the default configuration (fallback enabled) at a
one-item fetcher result per operation; the untagged region record
passes through unchanged. -/
theorem rate_limit_fallback_policy_witness :
    ({} : TrendsAPIConfig).use_fallback = true ∧
    daily_trends_async {} (.error .rateLimit) [⟨"t", "1M", [], []⟩] =
      (.ok [⟨"t", "1M", [], [], "playwright"⟩], 1) ∧
    interest_by_region_async {} (.error .rateLimit)
        [Json.obj [("geoCode", Json.str "US")]] =
      (.ok [Json.obj [("geoCode", Json.str "US")]], 1) := by
  have h := (rate_limit_fallback_policy {} [⟨"t", "1M", [], []⟩] []
    [] [Json.obj [("geoCode", Json.str "US")]]).1 rfl
  exact ⟨rfl, h.1, h.2.2.2.2.2.2⟩

/-! Reconfiguration. -/

/-- C8 (counterexample): `set_geo` does not rebuild the client: starting
from a freshly initialized orchestrator, changing the geo leaves the
same client instance in place (same generation, nothing closed, no new
construction) while mutating that client's configuration. -/
theorem set_geo_no_rebuild :
    (set_geo (trendsAPIInit {}) "GB").client.gen = (trendsAPIInit {}).client.gen ∧
    (set_geo (trendsAPIInit {}) "GB").client.config.geo = "GB" ∧
    (set_geo (trendsAPIInit {}) "GB").client.config.geo ≠
      (trendsAPIInit {}).client.config.geo ∧
    (set_geo (trendsAPIInit {}) "GB").closedGens = [] ∧
    (set_geo (trendsAPIInit {}) "GB").nextGen = (trendsAPIInit {}).nextGen := by
  decide

/-- C8 (amended): only `set_proxy` rebuilds the underlying client — it
closes the old instance and constructs a fresh one from a new
TrendsConfig — while `set_geo` keeps the existing client instance and
mutates its shared configuration (and the orchestrator's) in place. -/
theorem reconfiguration_rebuild_vs_mutate (st : TrendsAPIState) (g : String)
    (p : Option String) :
    (set_geo st g).client.gen = st.client.gen ∧
    (set_geo st g).client.config.geo = g ∧
    (set_geo st g).client.config.hl = st.client.config.hl ∧
    (set_geo st g).client.proxy = st.client.proxy ∧
    (set_geo st g).config.geo = g ∧
    (set_geo st g).closedGens = st.closedGens ∧
    (set_proxy st p).client =
      { gen := st.nextGen,
        config := { geo := st.config.geo, hl := st.config.hl, tz := st.config.tz },
        proxy := p } ∧
    (set_proxy st p).closedGens = st.closedGens ++ [st.client.gen] ∧
    (set_proxy st p).nextGen = st.nextGen + 1 :=
  ⟨rfl, rfl, rfl, rfl, rfl, rfl, rfl, rfl, rfl⟩

end GoogleHunter
